import Mathlib

set_option maxRecDepth 10000

/-!
Shallow embedding of `pyMHD/__init__.py` (functions `check_tool`, `searchKmer`,
`mafMHD`, `vcfMHD`).  Python strings are `List Char`; the two external
subprocesses (`samtools faidx` and the tandem-repeat finder `trf`) are
parameters mapping the exact shell command string the code builds to the
subprocess's stdout lines (and, for `samtools`, its exit status).  Python
exceptions are the `error` side of `Except`.
-/

namespace PyMHD

/-- Characters of a Python string. -/
abbrev Str := List Char

/-- Python exceptions that the embedded code can raise. -/
inductive PyError where
  | indexError
  | typeError
  | nameError
  | valueError
deriving DecidableEq

/-- Value returned by `searchKmer`: Python `None` (the bare `return` when
`samtools` is not on PATH), the tandem-repeat sentinel `-1`, or a kmer
string. -/
inductive SearchResult where
  | pyNone
  | repeatSentinel
  | kmer (s : Str)
deriving DecidableEq

/-- Characters removed by Python `str.strip()`. -/
def isPySpace (c : Char) : Bool :=
  c == ' ' || c == '\t' || c == '\n' || c == '\r' || c == '\x0b' || c == '\x0c'

/-- Python `s.strip()`. -/
def pyStrip (s : Str) : Str :=
  ((s.dropWhile isPySpace).reverse.dropWhile isPySpace).reverse

/-- Value of a nonempty all-digit string, else `none`. -/
def digitsVal (l : Str) : Option Nat :=
  if l = [] then none
  else if l.all (fun c => c.isDigit) then
    some (l.foldl (fun a c => a * 10 + (c.toNat - 48)) 0)
  else none

/-- Python `int(s)` on a decimal string: surrounding whitespace is ignored, an
optional single sign is allowed, otherwise the digits; anything else raises
`ValueError`. -/
def pyInt (s : Str) : Except PyError Int :=
  match pyStrip s with
  | '-' :: rest =>
    match digitsVal rest with
    | some n => .ok (-(n : Int))
    | none => .error .valueError
  | '+' :: rest =>
    match digitsVal rest with
    | some n => .ok (n : Int)
    | none => .error .valueError
  | t =>
    match digitsVal t with
    | some n => .ok (n : Int)
    | none => .error .valueError

/-- Python `str(i)` for an integer. -/
def intStr (i : Int) : Str := (toString i).data

/-- Python `' '.join(parts)`. -/
def joinSpace : List Str → Str
  | [] => []
  | [x] => x
  | x :: y :: rest => x ++ ' ' :: joinSpace (y :: rest)

/-- Python `line.split('\t')`. -/
def splitTab : Str → List Str
  | [] => [[]]
  | c :: cs =>
    if c = '\t' then [] :: splitTab cs
    else
      match splitTab cs with
      | [] => [[c]]
      | f :: fs => (c :: f) :: fs

/-- Whether `needle` occurs at the very front of `hay`. -/
def matchesAt : Str → Str → Bool
  | [], _ => true
  | _ :: _, [] => false
  | c :: cs, d :: ds => c == d && matchesAt cs ds

/-- Python substring containment `needle in hay`. -/
def strContains : Str → Str → Bool
  | needle, [] => matchesAt needle []
  | needle, c :: rest => matchesAt needle (c :: rest) || strContains needle rest

/-- `check_tool(name)` (lines 3-8): whether `name` is on PATH.  The PATH
contents are the parameter `path`. -/
def check_tool (path : List Str) (name : Str) : Bool :=
  path.contains name

/-- Python `list.index(x)` on a list of strings: first index, or `ValueError`
when absent. -/
def pyIndex (l : List Str) (x : Str) : Except PyError Nat :=
  match l.findIdx? (fun f => f == x) with
  | some i => .ok i
  | none => .error .valueError

/-- Lines 47-53: concatenate the stripped non-header stdout lines of
`samtools faidx`.  `fline[0]` on an empty line raises `IndexError`. -/
def buildFlankseq : List Str → Except PyError Str
  | [] => .ok []
  | l :: ls =>
    match l with
    | [] => .error .indexError
    | c :: _ =>
      if c = '>' then buildFlankseq ls
      else
        match buildFlankseq ls with
        | .error e => .error e
        | .ok rest => .ok (pyStrip l ++ rest)

/-- Lockstep character scan shared by the two kmer loops (lines 70-74 on the
reversed strings, lines 79-83 directly): compare `a` and `b` position by
position for at most `n` steps, accumulating the matched characters of `a` in
scan order, stopping at the first mismatch; indexing past the end of either
string raises `IndexError` exactly as Python indexing does. -/
def fwdScan : Str → Str → Nat → Except PyError Str
  | _, _, 0 => .ok []
  | [], _, _ + 1 => .error .indexError
  | _ :: _, [], _ + 1 => .error .indexError
  | x :: xs, y :: ys, n + 1 =>
    if x = y then
      match fwdScan xs ys n with
      | .error e => .error e
      | .ok rest => .ok (x :: rest)
    else .ok []

/-- Lines 69-84: the upstream scan (negative indices `-1 .. -len(ref)`, i.e. a
forward scan of the reversed strings) followed by `kmer[::-1]`; when that
yields `''`, the downstream scan (indices `0 .. len(ref)-1`) followed again by
`kmer[::-1]`. -/
def kmerScan (ref upstream downstream : Str) : Except PyError Str :=
  match fwdScan ref.reverse upstream.reverse ref.length with
  | .error e => .error e
  | .ok upAcc =>
    let kmer := upAcc.reverse
    if kmer = [] then
      match fwdScan ref downstream ref.length with
      | .error e => .error e
      | .ok downAcc => .ok downAcc.reverse
    else .ok kmer

/-- Line 62: the shell command built for the tandem-repeat finder. -/
def mkTrfCmd (trfdir flankseq : Str) : Str :=
  "echo \">seq1\n".data ++ flankseq ++ "\" | ".data ++ trfdir
    ++ " - 2 7 7 80 10 50 7 -h -ngs".data

/-- Lines 55-86 of `searchKmer`, once `flankseq` has been read back from
`samtools`: split into `upstream`/`downstream`, optionally exclude tandem
repeats (any stdout line from `trf` means exclusion), then run the kmer
scans.  `trfO` maps the trf shell command to its stdout lines. -/
def searchKmerCore (flankseq ref : Str) (flankSize : Nat) (trfdir : Option Str)
    (trfO : Str → List Str) : Except PyError SearchResult :=
  let upstream := flankseq.take flankSize
  let downstream := flankseq.drop (flankSize + ref.length)
  let go : Except PyError SearchResult :=
    match kmerScan ref upstream downstream with
    | .error e => .error e
    | .ok k => .ok (.kmer k)
  match trfdir with
  | some d =>
    if (trfO (mkTrfCmd d flankseq)).length > 0 then .ok .repeatSentinel
    else go
  | none => go

/-- `searchKmer` (lines 11-86).  `tools` is the set of executables on PATH;
`faidx` maps the exact `samtools faidx` command string the code builds to the
subprocess's `(stdout lines, exit status)`; `trfO` maps the trf command to its
stdout lines.  Note that the exit status is bound (`retvalUp`, line 54) but
never inspected. -/
def searchKmer (tools : List Str) (faidx : Str → List Str × Int)
    (trfO : Str → List Str) (chrom start ref genome : Str) (flankSize : Nat)
    (trfdir : Option Str) : Except PyError SearchResult :=
  if check_tool tools "samtools".data then
    match pyInt start with
    | .error e => .error e
    | .ok s =>
      let seqRegion := chrom ++ [':'] ++ intStr (s - (flankSize : Int)) ++ ['-']
        ++ intStr (s + (ref.length : Int) + (flankSize : Int))
      let cmd := joinSpace ["samtools".data, "faidx".data, genome, seqRegion]
      let out := faidx cmd
      let _retvalUp := out.2
      match buildFlankseq out.1 with
      | .error e => .error e
      | .ok flankseq => searchKmerCore flankseq ref flankSize trfdir trfO
  else .ok .pyNone

/-- Whether a `searchKmer`-shaped result is an ordinary kmer string. -/
def isKmerResult : Except PyError SearchResult → Bool
  | .ok (.kmer _) => true
  | _ => false

/-- The histogram `mhdCount`: counts for the integer keys `0..9` in order,
plus the `'10+'` key. -/
structure MhdCount where
  buckets : List Nat
  tenPlus : Nat
deriving DecidableEq

/-- Line 117: `dict.fromkeys(list(range(0,10)) + ['10+'], 0)`. -/
def mhdCountInit : MhdCount := ⟨List.replicate 10 0, 0⟩

/-- Increment position `i` of a bucket list (`mhdCount[i] += 1`). -/
def incNth : List Nat → Nat → List Nat
  | [], _ => []
  | x :: xs, 0 => (x + 1) :: xs
  | x :: xs, n + 1 => x :: incNth xs n

/-- Lines 173-178 (and 263-268): the histogram update for one accepted kmer of
length `k`; every bucket `0 .. k` is incremented when `k < 10`, else only
`'10+'`. -/
def addKmer (h : MhdCount) (k : Nat) : MhdCount :=
  if k < 10 then
    { h with buckets := (List.range (k + 1)).foldl incNth h.buckets }
  else
    { h with tenPlus := h.tenPlus + 1 }

/-- Line 180: the summary record. -/
structure SampleInfo where
  totalVariants : Nat
  deletions : Nat
  minDelFiltered : Nat
  shortTandemRepeatFiltered : Nat
deriving DecidableEq

/-- Mutable locals of the `mafMHD` loop: the five column indices (unset until
a header row is seen — Python `NameError` territory) and the counters. -/
structure MafState where
  indices : Option (Nat × Nat × Nat × Nat × Nat)
  mhdCount : MhdCount
  variantCount : Nat
  delCount : Nat
  delFiltered : Nat
  trfCount : Nat
deriving DecidableEq

/-- Outcome of processing one MAF line: keep looping with an updated state, or
take the early `return None` of the bare `except` (lines 145-148). -/
inductive LineStep where
  | next (st : MafState)
  | earlyNone
deriving DecidableEq

/-- Overall result of `mafMHD`/`vcfMHD`: Python `None` or the
`(mhdCount, sampleInfo)` pair. -/
inductive MafResult where
  | pyNone
  | done (mhdCount : MhdCount) (info : SampleInfo)
deriving DecidableEq

/-- Lines 123-178: the body of the `for line in file` loop for a single line. -/
def mafLine (tools : List Str) (faidx : Str → List Str × Int)
    (trfO : Str → List Str) (genome : Str) (minDelSize flankSize : Nat)
    (trfdir : Option Str) (st : MafState) (line : Str) :
    Except PyError LineStep :=
  if line.head? = some '#' then .ok (.next st)
  else
    let lineSplit := splitTab line
    if "Hugo_Symbol".data ∈ lineSplit then
      match pyIndex lineSplit "Variant_Type".data with
      | .error e => .error e
      | .ok variantTypeInd =>
      match pyIndex lineSplit "Chromosome".data with
      | .error e => .error e
      | .ok chromInd =>
      match pyIndex lineSplit "Start_position".data with
      | .error e => .error e
      | .ok startInd =>
      match pyIndex lineSplit "End_position".data with
      | .error e => .error e
      | .ok endInd =>
      match pyIndex lineSplit "Reference_Allele".data with
      | .error e => .error e
      | .ok refInd =>
        .ok (.next { st with
          indices := some (variantTypeInd, chromInd, startInd, endInd, refInd) })
    else
      let st1 := { st with variantCount := st.variantCount + 1 }
      match st.indices with
      | none => .ok .earlyNone
      | some (variantTypeInd, chromInd, startInd, endInd, refInd) =>
        match lineSplit.get? variantTypeInd, lineSplit.get? chromInd,
            lineSplit.get? startInd, lineSplit.get? endInd,
            lineSplit.get? refInd with
        | some variantType, some chrom0, some start, some _endPos, some ref =>
          if variantType ≠ "DEL".data then .ok (.next st1)
          else
            let st2 := { st1 with delCount := st1.delCount + 1 }
            let chrom :=
              if strContains "chr".data chrom0 then chrom0
              else "chr".data ++ chrom0
            if ref.length < minDelSize then
              .ok (.next { st2 with delFiltered := st2.delFiltered + 1 })
            else
              match searchKmer tools faidx trfO chrom start ref genome
                  flankSize trfdir with
              | .error e => .error e
              | .ok .repeatSentinel =>
                .ok (.next { st2 with trfCount := st2.trfCount + 1 })
              | .ok .pyNone => .error .typeError
              | .ok (.kmer s) =>
                .ok (.next { st2 with mhdCount := addKmer st2.mhdCount s.length })
        | _, _, _, _, _ => .ok .earlyNone

/-- The `for line in file` loop of `mafMHD`, then line 180's summary. -/
def mafLoop (tools : List Str) (faidx : Str → List Str × Int)
    (trfO : Str → List Str) (genome : Str) (minDelSize flankSize : Nat)
    (trfdir : Option Str) : MafState → List Str → Except PyError MafResult
  | st, [] =>
    .ok (.done st.mhdCount
      ⟨st.variantCount, st.delCount, st.delFiltered, st.trfCount⟩)
  | st, line :: rest =>
    match mafLine tools faidx trfO genome minDelSize flankSize trfdir st line with
    | .error e => .error e
    | .ok .earlyNone => .ok .pyNone
    | .ok (.next st') =>
      mafLoop tools faidx trfO genome minDelSize flankSize trfdir st' rest

/-- Initial loop state of `mafMHD` (lines 117-121): no column indices yet,
all counters zero. -/
def mafStateInit : MafState := ⟨none, mhdCountInit, 0, 0, 0, 0⟩

/-- `mafMHD` (lines 90-181), with the input file given as its list of lines. -/
def mafMHD (tools : List Str) (faidx : Str → List Str × Int)
    (trfO : Str → List Str) (lines : List Str) (genome : Str)
    (minDelSize flankSize : Nat) (trfdir : Option Str) :
    Except PyError MafResult :=
  mafLoop tools faidx trfO genome minDelSize flankSize trfdir mafStateInit lines

/-- One VCF variant as consumed by `vcfMHD`: `CHROM`, `POS`, `REF`, `ALT`. -/
structure VcfRecord where
  CHROM : Str
  POS : Int
  REF : Str
  ALT : List Str

/-- Counters of the `vcfMHD` loop. -/
structure VcfState where
  mhdCount : MhdCount
  variantCount : Nat
  delCount : Nat
  delFiltered : Nat
  trfCount : Nat
deriving DecidableEq

/-- Lines 236-268: the body of the `for alt in variant.ALT` loop. -/
def vcfAlt (tools : List Str) (faidx : Str → List Str × Int)
    (trfO : Str → List Str) (genome : Str) (minDelSize flankSize : Nat)
    (trfdir : Option Str) (rec : VcfRecord) (st : VcfState) (alt : Str) :
    Except PyError VcfState :=
  let chrom0 := rec.CHROM
  let start := intStr rec.POS
  let ref := rec.REF
  let chrom :=
    if strContains "chr".data chrom0 then chrom0 else "chr".data ++ chrom0
  if ref.length > alt.length then
    let st2 := { st with delCount := st.delCount + 1 }
    if ref.length < minDelSize then
      .ok { st2 with delFiltered := st2.delFiltered + 1 }
    else
      match searchKmer tools faidx trfO chrom start ref genome flankSize
          trfdir with
      | .error e => .error e
      | .ok .repeatSentinel => .ok { st2 with trfCount := st2.trfCount + 1 }
      | .ok .pyNone => .error .typeError
      | .ok (.kmer s) => .ok { st2 with mhdCount := addKmer st2.mhdCount s.length }
  else .ok st

/-- Fold of `vcfAlt` over the ALT alleles of one variant. -/
def vcfAlts (tools : List Str) (faidx : Str → List Str × Int)
    (trfO : Str → List Str) (genome : Str) (minDelSize flankSize : Nat)
    (trfdir : Option Str) (rec : VcfRecord) :
    VcfState → List Str → Except PyError VcfState
  | st, [] => .ok st
  | st, alt :: rest =>
    match vcfAlt tools faidx trfO genome minDelSize flankSize trfdir rec st alt with
    | .error e => .error e
    | .ok st' =>
      vcfAlts tools faidx trfO genome minDelSize flankSize trfdir rec st' rest

/-- Lines 231-271: the `for variant in vcf` loop plus the summary. -/
def vcfLoop (tools : List Str) (faidx : Str → List Str × Int)
    (trfO : Str → List Str) (genome : Str) (minDelSize flankSize : Nat)
    (trfdir : Option Str) : VcfState → List VcfRecord → Except PyError MafResult
  | st, [] =>
    .ok (.done st.mhdCount
      ⟨st.variantCount, st.delCount, st.delFiltered, st.trfCount⟩)
  | st, r :: rest =>
    let st1 := { st with variantCount := st.variantCount + 1 }
    match vcfAlts tools faidx trfO genome minDelSize flankSize trfdir r st1
        r.ALT with
    | .error e => .error e
    | .ok st' => vcfLoop tools faidx trfO genome minDelSize flankSize trfdir st' rest

/-- Names bound in `vcfMHD`'s local scope when line 211 executes: the five
parameters and the imported `VCF`. -/
def vcfLocalNames : List Str :=
  ["vcf".data, "genome".data, "minDelSize".data, "flankSize".data,
   "trfdir".data, "VCF".data]

/-- Module-level names of `pyMHD/__init__.py`. -/
def moduleGlobalNames : List Str :=
  ["subprocess".data, "check_tool".data, "searchKmer".data, "mafMHD".data,
   "vcfMHD".data]

/-- `vcfMHD` (lines 184-271).  Its first statement after the import,
`vcf = VCF(vcf_file, gts012=True)` (line 211), resolves the name `vcf_file`
(the parameter is named `vcf`); when the name is bound neither locally nor at
module level, Python raises `NameError` and nothing else runs. -/
def vcfMHD (tools : List Str) (faidx : Str → List Str × Int)
    (trfO : Str → List Str) (records : List VcfRecord) (genome : Str)
    (minDelSize flankSize : Nat) (trfdir : Option Str) :
    Except PyError MafResult :=
  if "vcf_file".data ∈ vcfLocalNames ∨ "vcf_file".data ∈ moduleGlobalNames then
    vcfLoop tools faidx trfO genome minDelSize flankSize trfdir
      ⟨mhdCountInit, 0, 0, 0, 0⟩ records
  else .error .nameError

end PyMHD

namespace PyMHD

/-! Helper lemmas about the scan and histogram primitives. -/

/-- A successful lockstep scan accumulates at most `n` characters. -/
theorem fwdScan_ok_length (a b : Str) (n : Nat) (l : Str)
    (h : fwdScan a b n = .ok l) : l.length ≤ n := by
  induction n generalizing a b l with
  | zero =>
    simp only [fwdScan] at h
    cases h
    simp
  | succ n ih =>
    cases a with
    | nil => exact Except.noConfusion (by simpa only [fwdScan] using h)
    | cons x xs =>
      cases b with
      | nil => exact Except.noConfusion (by simpa only [fwdScan] using h)
      | cons y ys =>
        simp only [fwdScan] at h
        split at h
        · split at h
          · exact Except.noConfusion h
          · rename_i rest hrec
            cases h
            simpa using Nat.succ_le_succ (ih xs ys rest hrec)
        · cases h
          simp

/-- The lockstep scan succeeds whenever neither string is shorter than the
iteration bound. -/
theorem fwdScan_total (a b : Str) (n : Nat) :
    n ≤ a.length → n ≤ b.length → ∃ l, fwdScan a b n = .ok l := by
  induction n generalizing a b with
  | zero => intro _ _; exact ⟨[], by simp only [fwdScan]⟩
  | succ n ih =>
    intro ha hb
    cases a with
    | nil => simp at ha
    | cons x xs =>
      cases b with
      | nil => simp at hb
      | cons y ys =>
        by_cases hxy : x = y
        · obtain ⟨l, hl⟩ := ih xs ys (by simpa using ha) (by simpa using hb)
          exact ⟨x :: l, by simp [fwdScan, hxy, hl]⟩
        · exact ⟨[], by simp [fwdScan, hxy]⟩

/-- A kmer produced by the two scans of lines 69-84 is at most as long as the
reference allele. -/
theorem kmerScan_ok_length (ref up down k : Str)
    (h : kmerScan ref up down = .ok k) : k.length ≤ ref.length := by
  unfold kmerScan at h
  split at h
  · exact Except.noConfusion h
  · rename_i upAcc hup
    simp only at h
    split at h
    · split at h
      · exact Except.noConfusion h
      · rename_i downAcc hdown
        cases h
        simpa using fwdScan_ok_length ref down ref.length downAcc hdown
    · cases h
      have := fwdScan_ok_length ref.reverse up.reverse ref.length upAcc hup
      simpa using this

/-- When `searchKmerCore` returns a kmer string, its length is bounded by the
reference allele's. -/
theorem searchKmerCore_kmer_length (flankseq ref : Str) (flankSize : Nat)
    (trfdir : Option Str) (trfO : Str → List Str) (s : Str)
    (h : searchKmerCore flankseq ref flankSize trfdir trfO = .ok (.kmer s)) :
    s.length ≤ ref.length := by
  unfold searchKmerCore at h
  simp only at h
  split at h
  · split at h
    · cases h
    · split at h
      · exact Except.noConfusion h
      · rename_i k hk
        cases h
        exact kmerScan_ok_length _ _ _ _ hk
  · split at h
    · exact Except.noConfusion h
    · rename_i k hk
      cases h
      exact kmerScan_ok_length _ _ _ _ hk

/-- `incNth` preserves the length of the bucket list. -/
theorem incNth_length (l : List Nat) (i : Nat) : (incNth l i).length = l.length := by
  induction l generalizing i with
  | nil => simp [incNth]
  | cons x xs ih =>
    cases i with
    | zero => simp [incNth]
    | succ n => simp [incNth, ih]

/-- Effect of `incNth` on each position of the bucket list. -/
theorem incNth_getD (l : List Nat) (i j : Nat) :
    (incNth l i).getD j 0 =
      if j = i ∧ i < l.length then l.getD j 0 + 1 else l.getD j 0 := by
  induction l generalizing i j with
  | nil => simp [incNth]
  | cons x xs ih =>
    cases i with
    | zero =>
      cases j with
      | zero => simp [incNth]
      | succ jj => simp [incNth]
    | succ ii =>
      cases j with
      | zero => simp [incNth]
      | succ jj =>
        simp only [incNth, List.getD_cons_succ, List.length_cons]
        rw [ih ii jj]
        by_cases hc : jj = ii ∧ ii < xs.length
        · rw [if_pos hc, if_pos (by omega)]
        · rw [if_neg hc, if_neg (by omega)]

/-- Folding `incNth` over `range m` preserves the bucket list's length. -/
theorem foldRange_incNth_length (l : List Nat) (m : Nat) :
    ((List.range m).foldl incNth l).length = l.length := by
  induction m with
  | zero => rfl
  | succ n ih =>
    rw [List.range_succ, List.foldl_append, List.foldl_cons, List.foldl_nil,
      incNth_length, ih]

/-- Folding `incNth` over `range m` adds one to exactly the positions
below `m`. -/
theorem foldRange_incNth_getD (l : List Nat) (m j : Nat) :
    m ≤ l.length →
    ((List.range m).foldl incNth l).getD j 0 =
      if j < m then l.getD j 0 + 1 else l.getD j 0 := by
  induction m with
  | zero => intro _; simp
  | succ n ih =>
    intro hm
    rw [List.range_succ, List.foldl_append, List.foldl_cons, List.foldl_nil,
      incNth_getD, foldRange_incNth_length, ih (by omega)]
    by_cases hj : j = n
    · subst hj
      rw [if_pos ⟨rfl, by omega⟩, if_neg (by omega), if_pos (by omega)]
    · by_cases hj2 : j < n
      · rw [if_neg (by omega), if_pos hj2, if_pos (by omega)]
      · rw [if_neg (by omega), if_neg hj2, if_neg (by omega)]

/-! Claim theorems. -/

/-- C1 (refuted as stated; code bug): when the upstream scan yields the empty
kmer, the downstream scan of lines 79-84 accumulates the longest matching
prefix of the reference allele in forward order and then reverses it
(`kmer = kmer[::-1]`, line 84), so `searchKmer` returns the REVERSE of that
prefix, not the prefix in original 5-prime-to-3-prime order.  Concretely, for
`referenceAllele = "AG"`, `upstream = "TT"` (no suffix match) and
`downstream = "AGC"` (matching prefix `"AG"`), the code returns `"GA"`. -/
theorem downstream_kmer_is_reversed :
    searchKmerCore "TTXXAGC".data "AG".data 2 none (fun _ => []) =
      .ok (.kmer "GA".data) ∧ ("GA".data : Str) ≠ "AG".data :=
  ⟨rfl, by decide⟩

/-- C2: whenever `searchKmer` returns an ordinary kmer string for a deletion
(nonempty reference allele), the kmer's length is at most the reference
allele's length. -/
theorem searchKmer_kmer_length_le (tools : List Str)
    (faidx : Str → List Str × Int) (trfO : Str → List Str)
    (chrom start ref genome : Str) (flankSize : Nat) (trfdir : Option Str)
    (s : Str) (_href : ref ≠ [])
    (h : searchKmer tools faidx trfO chrom start ref genome flankSize trfdir
      = .ok (.kmer s)) : s.length ≤ ref.length := by
  unfold searchKmer at h
  split at h
  · split at h
    · exact Except.noConfusion h
    · simp only at h
      split at h
      · exact Except.noConfusion h
      · exact searchKmerCore_kmer_length _ _ _ _ _ _ h
  · cases h

/-- Witness for C2 at a concrete successful call: reference allele `"AA"`,
fetched window `"GAAAA"`, flank size 1, returned kmer `"AA"` of length 2. -/
theorem searchKmer_kmer_length_le_witness :
    ("AA".data : Str).length ≤ ("AA".data : Str).length :=
  searchKmer_kmer_length_le ["samtools".data] (fun _ => (["GAAAA".data], 0))
    (fun _ => []) "chr1".data "5".data "AA".data "g".data 1 none "AA".data
    (by decide) rfl

/-- C3: when the upstream scan yields a nonempty kmer, `searchKmer`'s core
returns exactly that kmer (restored to 5-prime-to-3-prime order), and the
result does not depend on anything beyond the upstream flank: any two fetched
windows agreeing on their first `flankSize` characters give the same answer,
whatever their downstream parts are. -/
theorem searchKmer_upstream_precedence (fs1 fs2 ref : Str) (flankSize : Nat)
    (trfO1 trfO2 : Str → List Str) (k : Str)
    (hup : fs1.take flankSize = fs2.take flankSize)
    (hscan : fwdScan ref.reverse (fs1.take flankSize).reverse ref.length
      = .ok k)
    (hne : k ≠ []) :
    searchKmerCore fs1 ref flankSize none trfO1 = .ok (.kmer k.reverse) ∧
    searchKmerCore fs2 ref flankSize none trfO2 = .ok (.kmer k.reverse) := by
  have hcore : ∀ (fs : Str) (trfO : Str → List Str),
      fs.take flankSize = fs1.take flankSize →
      searchKmerCore fs ref flankSize none trfO = .ok (.kmer k.reverse) := by
    intro fs trfO hfs
    simp only [searchKmerCore, kmerScan]
    rw [hfs, hscan]
    simp [hne]
  exact ⟨hcore fs1 trfO1 rfl, hcore fs2 trfO2 hup.symm⟩

/-- Witness for C3: reference allele `"AB"`, two windows both starting `"AB"`
but with different downstream parts; both calls return the upstream kmer
`"AB"`. -/
theorem searchKmer_upstream_precedence_witness :
    searchKmerCore "ABXYZQRS".data "AB".data 2 none (fun _ => []) =
      .ok (.kmer "AB".data) ∧
    searchKmerCore "ABZZZZZZ".data "AB".data 2 none (fun _ => ["x".data]) =
      .ok (.kmer "AB".data) :=
  searchKmer_upstream_precedence "ABXYZQRS".data "ABZZZZZZ".data "AB".data 2
    (fun _ => []) (fun _ => ["x".data]) ['B', 'A'] rfl rfl (by decide)

/-- C4: with a repeat filter supplied, if the repeat finder reports at least
one match on the fetched window then `searchKmer` returns the tandem-repeat
sentinel, whatever the reference allele and flanks are — the kmer scans are
never run (the conclusion holds even for inputs on which the scans would
raise). -/
theorem searchKmer_repeat_short_circuits (tools : List Str)
    (faidx : Str → List Str × Int) (trfO : Str → List Str)
    (chrom start ref genome : Str) (flankSize : Nat) (d : Str) (s : Int)
    (flankseq : Str)
    (htool : check_tool tools "samtools".data = true)
    (hs : pyInt start = .ok s)
    (hf : buildFlankseq (faidx (joinSpace ["samtools".data, "faidx".data,
      genome, chrom ++ [':'] ++ intStr (s - (flankSize : Int)) ++ ['-']
      ++ intStr (s + (ref.length : Int) + (flankSize : Int))])).1
      = .ok flankseq)
    (hdet : (trfO (mkTrfCmd d flankseq)).length > 0) :
    searchKmer tools faidx trfO chrom start ref genome flankSize (some d)
      = .ok .repeatSentinel := by
  unfold searchKmer
  rw [htool]
  simp only [if_true]
  rw [hs]
  simp only
  rw [hf]
  unfold searchKmerCore
  simp only
  rw [if_pos hdet]

/-- Witness for C4: a window `"AAAA"` on which both scans would find a kmer,
with a repeat finder that reports one match; the sentinel is returned. -/
theorem searchKmer_repeat_short_circuits_witness :
    searchKmer ["samtools".data] (fun _ => ([">x".data, "AAAA".data], 0))
      (fun _ => ["hit".data]) "chr1".data "5".data "AA".data "g".data 1
      (some "trf".data) = .ok .repeatSentinel :=
  searchKmer_repeat_short_circuits ["samtools".data]
    (fun _ => ([">x".data, "AAAA".data], 0)) (fun _ => ["hit".data])
    "chr1".data "5".data "AA".data "g".data 1 "trf".data 5 "AAAA".data
    rfl rfl rfl (by decide)

/-- C5: the histogram update of lines 173-178 for an accepted kmer of length
`k` leaves `'10+'` alone and adds one to every bucket `0 ≤ i ≤ k` when
`k < 10`; when `k ≥ 10` it adds one to `'10+'` only and leaves every bucket
`0..9` unchanged. -/
theorem addKmer_cumulative_histogram (h : MhdCount) (k : Nat)
    (hlen : h.buckets.length = 10) :
    ((addKmer h k).tenPlus = if k < 10 then h.tenPlus else h.tenPlus + 1) ∧
    ∀ i, i < 10 → (addKmer h k).buckets.getD i 0 =
      if k < 10 ∧ i ≤ k then h.buckets.getD i 0 + 1 else h.buckets.getD i 0 := by
  by_cases hk : k < 10
  · refine ⟨by simp [addKmer, hk], fun i hi => ?_⟩
    simp only [addKmer, if_pos hk]
    rw [foldRange_incNth_getD h.buckets (k + 1) i (by omega)]
    by_cases hik : i ≤ k
    · rw [if_pos (by omega), if_pos ⟨hk, hik⟩]
    · rw [if_neg (by omega), if_neg (by simp [hik])]
  · refine ⟨by simp [addKmer, hk], fun i hi => ?_⟩
    simp [addKmer, hk]

/-- Witness for C5: after recording a kmer of length 4 in the fresh histogram,
bucket 2 holds count 1. -/
theorem addKmer_cumulative_histogram_witness :
    (addKmer mhdCountInit 4).buckets.getD 2 0 = 1 := by
  have h := (addKmer_cumulative_histogram mhdCountInit 4 rfl).2 2 (by decide)
  rw [if_pos (by decide)] at h
  exact h.trans rfl

/-- C6: a data line whose fields resolve to a `DEL` with
`len(referenceAllele) < minDelSize` only bumps the variant, deletion and
`minDelFiltered` counters: the histogram is untouched, and — since the
conclusion holds for every `tools`, `faidx`, `trfO` and `trfdir` — no
`searchKmer` call and no sequence fetch is consulted for it. -/
theorem mafLine_min_del_size_filter (tools : List Str)
    (faidx : Str → List Str × Int) (trfO : Str → List Str) (genome : Str)
    (minDelSize flankSize : Nat) (trfdir : Option Str)
    (vtI chI stI enI rfI : Nat) (mhd : MhdCount) (vc dc df tc : Nat)
    (line : Str) (fields : List Str) (chromF startF endF refF : Str)
    (hhead : line.head? ≠ some '#')
    (hsplit : splitTab line = fields)
    (hnothdr : "Hugo_Symbol".data ∉ fields)
    (hvt : fields.get? vtI = some "DEL".data)
    (hch : fields.get? chI = some chromF)
    (hst : fields.get? stI = some startF)
    (hen : fields.get? enI = some endF)
    (hrf : fields.get? rfI = some refF)
    (hsize : refF.length < minDelSize) :
    mafLine tools faidx trfO genome minDelSize flankSize trfdir
      ⟨some (vtI, chI, stI, enI, rfI), mhd, vc, dc, df, tc⟩ line =
    .ok (.next ⟨some (vtI, chI, stI, enI, rfI), mhd, vc + 1, dc + 1, df + 1, tc⟩) := by
  simp only [mafLine, hsplit]
  rw [if_neg hhead, if_neg hnothdr, hvt, hch, hst, hen, hrf]
  simp [hsize]

/-- Witness for C6 at a concrete line: `"DEL\t1\t100\t102\tAAA"` with column
indices `(0,1,2,3,4)` and `minDelSize = 5`. -/
theorem mafLine_min_del_size_filter_witness :
    mafLine [] (fun _ => ([], 0)) (fun _ => []) "g".data 5 100 none
      ⟨some (0, 1, 2, 3, 4), mhdCountInit, 0, 0, 0, 0⟩
      "DEL\t1\t100\t102\tAAA".data =
    .ok (.next ⟨some (0, 1, 2, 3, 4), mhdCountInit, 1, 1, 1, 0⟩) :=
  mafLine_min_del_size_filter [] (fun _ => ([], 0)) (fun _ => []) "g".data 5
    100 none 0 1 2 3 4 mhdCountInit 0 0 0 0 "DEL\t1\t100\t102\tAAA".data
    (splitTab "DEL\t1\t100\t102\tAAA".data) "1".data "100".data "102".data
    "AAA".data (by decide) rfl (by decide) rfl rfl rfl rfl rfl (by decide)

/-- C7 (refuted as stated; code bug): when the `samtools faidx` fetch fails —
here exit status 1 with an error message on the combined stdout/stderr stream
— `searchKmer` signals nothing: `retvalUp` (line 54) is never inspected, the
error text is treated as flanking sequence, and the call returns the ordinary
empty-string kmer, indistinguishable from a genuine "no microhomology"
result.  No `SequenceRetrievalError` exists anywhere in the code. -/
theorem searchKmer_ignores_retrieval_failure :
    searchKmer ["samtools".data]
      (fun _ => (["[fai_fetch] Error\n".data], (1 : Int))) (fun _ => [])
      "chr1".data "5".data "TTT".data "genome.fa".data 5 none =
      .ok (.kmer []) := rfl

/-- C8 counterexample: with `samtools` absent from PATH, a MAF run whose only
deletion is below `minDelSize` is not aborted at all — it completes normally
and returns full results (1 variant, 1 deletion, 1 filtered), so the missing
tool is neither fatal nor surfaced before variant processing. -/
theorem mafMHD_completes_without_samtools :
    ("samtools".data ∉ ([] : List Str)) ∧
    mafMHD [] (fun _ => ([], 0)) (fun _ => [])
      ["Hugo_Symbol\tVariant_Type\tChromosome\tStart_position\tEnd_position\tReference_Allele".data,
       "GENE\tDEL\t1\t100\t102\tAAA".data]
      "g".data 5 100 none =
      .ok (.done mhdCountInit ⟨1, 1, 1, 0⟩) :=
  ⟨by simp, rfl⟩

/-- C8 amended: the `samtools` check happens lazily inside `searchKmer`, once
per qualifying deletion; when the tool is missing, `searchKmer` returns
Python `None` and the aggregator's `len(kmer)` then raises `TypeError`, so a
run aborts (without results) only upon reaching its first deletion of size
`>= minDelSize` — not before processing begins. -/
theorem mafLine_missing_samtools_type_error (tools : List Str)
    (faidx : Str → List Str × Int) (trfO : Str → List Str) (genome : Str)
    (minDelSize flankSize : Nat) (trfdir : Option Str)
    (vtI chI stI enI rfI : Nat) (mhd : MhdCount) (vc dc df tc : Nat)
    (line : Str) (fields : List Str) (chromF startF endF refF : Str)
    (hhead : line.head? ≠ some '#')
    (hsplit : splitTab line = fields)
    (hnothdr : "Hugo_Symbol".data ∉ fields)
    (hvt : fields.get? vtI = some "DEL".data)
    (hch : fields.get? chI = some chromF)
    (hst : fields.get? stI = some startF)
    (hen : fields.get? enI = some endF)
    (hrf : fields.get? rfI = some refF)
    (hsize : minDelSize ≤ refF.length)
    (htool : check_tool tools "samtools".data = false) :
    mafLine tools faidx trfO genome minDelSize flankSize trfdir
      ⟨some (vtI, chI, stI, enI, rfI), mhd, vc, dc, df, tc⟩ line =
    .error .typeError := by
  simp only [mafLine, hsplit]
  rw [if_neg hhead, if_neg hnothdr, hvt, hch, hst, hen, hrf]
  simp only [searchKmer, htool]
  simp [Nat.not_lt.mpr hsize]

/-- Witness for the amended C8: a qualifying deletion line with `samtools`
missing yields `TypeError`. -/
theorem mafLine_missing_samtools_type_error_witness :
    mafLine [] (fun _ => ([], 0)) (fun _ => []) "g".data 5 100 none
      ⟨some (0, 1, 2, 3, 4), mhdCountInit, 0, 0, 0, 0⟩
      "DEL\t1\t100\t105\tAAAAA".data =
    .error .typeError :=
  mafLine_missing_samtools_type_error [] (fun _ => ([], 0)) (fun _ => [])
    "g".data 5 100 none 0 1 2 3 4 mhdCountInit 0 0 0 0
    "DEL\t1\t100\t105\tAAAAA".data (splitTab "DEL\t1\t100\t105\tAAAAA".data)
    "1".data "100".data "105".data "AAAAA".data (by decide) rfl (by decide)
    rfl rfl rfl rfl rfl (by decide) rfl

/-- C9 counterexample: the scans index past the end of a flank that is shorter
than the reference allele.  With an empty fetched window (both flanks empty)
and reference allele `"A"`, the upstream scan's first comparison reads
`upstream[-1]` of an empty string and raises `IndexError`, so the scans are
not total. -/
theorem kmer_scan_short_flank_index_error :
    searchKmerCore [] "A".data 100 none (fun _ => []) = .error .indexError :=
  rfl

/-- C9 amended: the scans stop at the first mismatch or at exhaustion of the
reference allele; whenever both flanks are at least as long as the reference
allele no out-of-bounds access occurs and the core returns an ordinary kmer,
but a fully matching flank shorter than the reference allele is indexed past
its end (IndexError), as the counterexample shows. -/
theorem searchKmerCore_total_with_long_flanks (flankseq ref : Str)
    (flankSize : Nat) (trfO : Str → List Str)
    (hup : ref.length ≤ (flankseq.take flankSize).length)
    (hdown : ref.length ≤ (flankseq.drop (flankSize + ref.length)).length) :
    isKmerResult (searchKmerCore flankseq ref flankSize none trfO) = true := by
  obtain ⟨l1, h1⟩ := fwdScan_total ref.reverse (flankseq.take flankSize).reverse
    ref.length (by simp) (by simpa using hup)
  by_cases hl : l1.reverse = []
  · obtain ⟨l2, h2⟩ := fwdScan_total ref (flankseq.drop (flankSize + ref.length))
      ref.length le_rfl hdown
    simp [searchKmerCore, kmerScan, h1, h2, hl, isKmerResult]
  · simp [searchKmerCore, kmerScan, h1, hl, isKmerResult]

/-- Witness for the amended C9: window `"AAAA"`, reference allele `"A"`,
flank size 2; both flanks have length at least 1 and the core returns a
kmer. -/
theorem searchKmerCore_total_with_long_flanks_witness :
    isKmerResult (searchKmerCore "AAAA".data "A".data 2 none (fun _ => [])) =
      true :=
  searchKmerCore_total_with_long_flanks "AAAA".data "A".data 2 (fun _ => [])
    (by decide) (by decide)

/-- C10: `vcfMHD` evaluates the unbound name `vcf_file` (its parameter is
named `vcf`) in its first statement after the import, so for every input it
raises `NameError` before touching a single variant record and never returns
the documented histogram/summary pair. -/
theorem vcfMHD_raises_name_error (tools : List Str)
    (faidx : Str → List Str × Int) (trfO : Str → List Str)
    (records : List VcfRecord) (genome : Str) (minDelSize flankSize : Nat)
    (trfdir : Option Str) :
    vcfMHD tools faidx trfO records genome minDelSize flankSize trfdir =
      .error .nameError := by
  unfold vcfMHD
  rw [if_neg (by decide)]

end PyMHD
